import Mathlib

/-!
Verification of the per-connection session protocol of `backend/main.py`
(Acadza WebSocket interview service).

The Python source is shallowly embedded: text is modelled as `List Char`
(Python `str`), the `ConversationManager` object as an explicit record,
and the `websocket_endpoint` dispatch loop as a step function over inbound
messages.  External effects (the Gemini text-generation call and the two
`random.randint` draws used by the personality analysis) are passed in
explicitly as an `ExtIn` record per handled message.
-/

set_option maxRecDepth 4096

abbrev Str := List Char

/-- ASCII whitespace, matching Python `str.split()` / `str.strip()` on the
inputs this service handles. -/
def isSpaceChar (c : Char) : Bool :=
  c == ' ' || c == '\t' || c == '\n' || c == '\r' || c == Char.ofNat 11 || c == Char.ofNat 12

/-- Python `\w` (word character), ASCII fragment. -/
def isWordChar (c : Char) : Bool :=
  c.isAlphanum || c == '_'

/-- Python `str.strip()`: drop leading and trailing whitespace. -/
def pyStrip (l : Str) : Str :=
  (((l.dropWhile isSpaceChar).reverse).dropWhile isSpaceChar).reverse

/-- Python `str.strip(c)` for a single character: drop leading and trailing
runs of `c`. -/
def stripCharEnds (c : Char) (l : Str) : Str :=
  (((l.dropWhile (· == c)).reverse).dropWhile (· == c)).reverse

/-- `leadsWith n h` : `n` is an initial segment of `h`. -/
def leadsWith : Str → Str → Bool
  | [], _ => true
  | _ :: _, [] => false
  | c :: cs, d :: ds => c == d && leadsWith cs ds

/-- Python substring test `needle in hay`. -/
def occursIn (needle : Str) : Str → Bool
  | [] => leadsWith needle []
  | d :: ds => leadsWith needle (d :: ds) || occursIn needle ds

/-- Lower-case a string (Python `str.lower()`, ASCII fragment). -/
def lowerStr (l : Str) : Str := l.map Char.toLower

/-- Helper for `" ".join(...)`. -/
def joinSpace : List Str → Str
  | [] => []
  | [w] => w
  | w :: ws => w ++ ' ' :: joinSpace ws

/-- Python `str.split()`: split on whitespace runs, discarding empty chunks.
`acc` holds the current chunk reversed. -/
def splitWsGo : Str → Str → List Str
  | [], acc => if acc = [] then [] else [acc.reverse]
  | c :: rest, acc =>
    if isSpaceChar c then
      if acc = [] then splitWsGo rest [] else acc.reverse :: splitWsGo rest []
    else splitWsGo rest (c :: acc)

def splitWs (l : Str) : List Str := splitWsGo l []

/-- Stable insertion placing `w` before the first element not longer than it
(descending-length order, stable on ties). -/
def insertByLen (w : Str) : List Str → List Str
  | [] => [w]
  | x :: xs => if x.length ≤ w.length then w :: x :: xs else x :: insertByLen w xs

/-- Python `list.sort(key=len, reverse=True)`: stable descending-length sort. -/
def sortByLenDesc : List Str → List Str
  | [] => []
  | w :: ws => insertByLen w (sortByLenDesc ws)

/-- Fixed stop-word set of `ConversationManager.extract_keywords`. -/
def stopWords : List Str :=
  [ "i".data, "me".data, "my".data, "myself".data, "we".data, "our".data,
    "ours".data, "ourselves".data, "you".data, "your".data, "yours".data,
    "yourself".data, "yourselves".data, "he".data, "him".data, "his".data,
    "himself".data, "she".data, "her".data, "hers".data, "herself".data,
    "it".data, "its".data, "itself".data, "they".data, "them".data,
    "their".data, "theirs".data, "themselves".data, "what".data, "which".data,
    "who".data, "whom".data, "this".data, "that".data, "these".data,
    "those".data, "am".data, "is".data, "are".data, "was".data, "were".data,
    "be".data, "been".data, "being".data, "have".data, "has".data, "had".data,
    "having".data, "do".data, "does".data, "did".data, "doing".data,
    "a".data, "an".data, "the".data, "and".data, "but".data, "if".data,
    "or".data, "because".data, "as".data, "until".data, "while".data,
    "of".data, "at".data, "by".data, "for".data, "with".data, "about".data,
    "against".data, "between".data, "into".data, "through".data,
    "during".data, "before".data, "after".data, "above".data, "below".data,
    "to".data, "from".data, "up".data, "down".data, "in".data, "out".data,
    "on".data, "off".data, "over".data, "under".data, "again".data,
    "further".data, "then".data, "once".data, "just".data, "very".data,
    "really".data ]

/-- `ConversationManager.extract_keywords`: lower-case, strip punctuation
(`re.sub(r'[^\w\s]', '', ...)`), split on whitespace, drop stop words and
tokens of length ≤ 2, stable-sort by descending length, keep at most 3;
if no keyword survives, fall back to the first two raw tokens of the
cleaned text. -/
def extractKeywords (text : Str) : List Str :=
  let cleaned := (lowerStr text).filter (fun c => isWordChar c || isSpaceChar c)
  let words := splitWs cleaned
  let keywords := words.filter (fun w => !stopWords.contains w && 2 < w.length)
  if keywords = [] then words.take 2 else (sortByLenDesc keywords).take 3

/-- Python `.strip('"').strip("'").strip('`')` applied after `.strip()` in
`generate_follow_up_question`. -/
def stripQuotes (l : Str) : Str :=
  stripCharEnds (Char.ofNat 96) (stripCharEnds '\'' (stripCharEnds '"' l))

def thatWord : Str := "that".data

/-- The trigger-style-specific fallback questions substituted when the
generated text fails keyword validation (`generate_follow_up_question`,
validation branch).  `count` is `self.follow_up_count` at call time:
0 selects `curiosity_opener`, 1 `pattern_interrupt`, otherwise `deep_dive`. -/
def triggerFallback (count : Nat) (kw : Str) : Str :=
  if count = 0 then
    "Wait, you said '".data ++ kw ++ "' - that word caught my attention. What's the story behind choosing THAT word? 🤔".data
  else if count = 1 then
    "Hold up. Let me challenge '".data ++ kw ++ "' for a second - what if it's not what you think it is? 😏".data
  else
    "If '".data ++ kw ++ "' was a person sitting across from you right now, what would you say to them? 💭".data

/-- The exception-path fallback (`except` branch of
`generate_follow_up_question`). -/
def exceptFallback (kw : Str) : Str :=
  "Hmm, '".data ++ kw ++ "' stuck with me. Tell me more? 🤔".data

/-- The keyword list after the in-method re-fallback
(`if not keywords: keywords = user_input.split()[:2]`). -/
def effectiveKeywords (input : Str) : List Str :=
  let kws := extractKeywords input
  if kws = [] then (splitWs input).take 2 else kws

/-- `keyword_to_use` / the `except`-path `keyword`: head of the effective
keyword list, or the literal `"that"`. -/
def requiredKeyword (input : Str) : Str :=
  (effectiveKeywords input).headD thatWord

/-- `ConversationManager.generate_follow_up_question`.  `count` is
`self.follow_up_count`; `oracle` is the external generation capability's
response for this call (`none` models a raised exception or missing model,
routing to the `except` fallback).  The conversation context only feeds
the prompt sent to the external capability, so it does not appear here. -/
def generateFollowUp (count : Nat) (input : Str) (oracle : Option Str) : Str :=
  let kw := requiredKeyword input
  match oracle with
  | none => exceptFallback kw
  | some t =>
    let q := stripQuotes (pyStrip t)
    if occursIn (lowerStr kw) (lowerStr q) then q
    else triggerFallback count kw

/-! ## Conversation state and personality analysis -/

/-- One history entry of `ConversationManager.conversation_history`:
`{"user": ..., "ai": ...}`. -/
structure Turn where
  user : Str
  ai : Str
deriving DecidableEq

/-- `" ".join([msg['user'].lower() for msg in history])` in
`PersonalityAnalyzer.analyze_conversation`. -/
def allResponses (h : List Turn) : Str :=
  joinSpace (h.map (fun t => lowerStr t.user))

def strongNegativeWords : List Str :=
  ["hate".data, "despise".data, "can't stand".data, "never".data]

def strongPositiveWords : List Str :=
  ["love".data, "adore".data, "passionate".data, "excited".data]

def questionMarkers : List Str :=
  ["?".data, "why".data, "how".data, "what if".data]

def actionWords : List Str :=
  ["do".data, "build".data, "make".data, "create".data, "try".data]

def specificsWords : List Str :=
  ["when".data, "because".data, "example".data, "specifically".data, "actually".data]

def hasStrongNegatives (s : Str) : Bool := strongNegativeWords.any (fun w => occursIn w s)

def hasStrongPositives (s : Str) : Bool := strongPositiveWords.any (fun w => occursIn w s)

def hasQuestions (s : Str) : Bool := questionMarkers.any (fun w => occursIn w s)

def hasActionWords (s : Str) : Bool := actionWords.any (fun w => occursIn w s)

def usesSpecifics (s : Str) : Bool := specificsWords.any (fun w => occursIn w s)

/-- `avg_response_length > 8` with `avg = word_count / len(history)`,
expressed exactly over the integers: `word_count / len > 8  ↔  8·len < word_count`. -/
def isDetailed (h : List Turn) (wc : Nat) : Bool := decide (8 * h.length < wc)

/-- The five personality categories of `PersonalityAnalyzer.PERSONALITY_TYPES`. -/
inductive PKey where
  | rebel | explorer | builder | analyst | chameleon
deriving DecidableEq

/-- The category-selection cascade of `analyze_conversation`
(lines 286-295 of the source), evaluated in source order. -/
def personalityKey (h : List Turn) : PKey :=
  let s := allResponses h
  let wc := (splitWs s).length
  if hasQuestions s && hasStrongNegatives s then .rebel
  else if hasStrongPositives s && isDetailed h wc then .explorer
  else if hasActionWords s && usesSpecifics s then .builder
  else if isDetailed h wc && !hasActionWords s then .analyst
  else .chameleon

/-- Static per-category content record of `PERSONALITY_TYPES`. -/
structure PInfo where
  name : Str
  traits : List Str
  description : Str
  advice : Str
  prediction : Str
  secretStrength : Str
  challenge : Str
  wouldSucceedAt : List Str
deriving DecidableEq

def rebelLearner : PInfo :=
  { name := "The Rebel Learner 🎸".data,
    traits :=
      [ "Questions everything before accepting it".data,
        "Hates being told what to do without explanation".data,
        "Learns best by challenging the status quo".data,
        "Gets bored with traditional methods FAST".data ],
    description := "You're not difficult - you're just wired to understand the 'WHY' before the 'HOW'. Rules without reasons? Hard pass. But give you a puzzle to solve? You're ALL in.".data,
    advice := "Forget textbooks. Try: debate clubs, real-world projects, teaching yourself by doing the opposite of what you're told (ironically, that makes you learn faster).".data,
    prediction := "In 3 years, you'll look back and realize all your best skills came from things you taught YOURSELF, not from courses.".data,
    secretStrength := "Your \"rebellion\" is actually critical thinking in disguise. That's rare. Don't lose it.".data,
    challenge := "Try this: Pick ONE \"boring\" thing and find a way to make it interesting by breaking the rules. Then tell someone what you discovered.".data,
    wouldSucceedAt :=
      [ "Entrepreneurship".data, "Innovation".data,
        "Problem-solving roles".data, "Creative industries".data ] }

def passionateExplorer : PInfo :=
  { name := "The Passionate Explorer 🔥".data,
    traits :=
      [ "When something clicks, you dive DEEP".data,
        "Connects random dots others miss".data,
        "Gets obsessed with topics (in a good way)".data,
        "Bored by surface-level understanding".data ],
    description := "You don't just \"study\" - you devour. When a topic excites you, 3am research sessions happen naturally. Your superpower? You see connections between things that seem unrelated.".data,
    advice := "Stop trying to learn everything. Follow your obsessions wherever they lead. That 3am deep-dive into a random topic? That's not procrastination - that's you finding your edge.".data,
    prediction := "Your career won't be a straight line. It'll zigzag through interests, and each \"random\" skill will connect later in ways you can't imagine now.".data,
    secretStrength := "Your curiosity is a compound interest machine. Every deep dive pays dividends later.".data,
    challenge := "Take your latest obsession and explain it to someone in a way that makes THEM curious too. That's your superpower.".data,
    wouldSucceedAt :=
      [ "Research".data, "Creative writing".data,
        "Product design".data, "Content creation".data ] }

def practicalBuilder : PInfo :=
  { name := "The Practical Builder 🛠️".data,
    traits :=
      [ "Learns by DOING, not reading".data,
        "Theory is boring until you see it work".data,
        "Needs real examples and hands-on practice".data,
        "Fixes things by trying, failing, trying again".data ],
    description := "Watching tutorials? Meh. Building something broken at 2am? THAT'S when you learn. You need your hands dirty, not your notes perfect.".data,
    advice := "Stop watching. Start building. Even if it breaks. ESPECIALLY if it breaks. Every error message is a lesson you'll never forget.".data,
    prediction := "In 2 years, you'll have built more real things than people with \"better grades\". And companies will want YOU, not the theory experts.".data,
    secretStrength := "You learn in weeks what takes others months, because you're not afraid to break things.".data,
    challenge := "Build something today. Anything. It can be broken, ugly, or \"wrong\". Just make it REAL.".data,
    wouldSucceedAt :=
      [ "Software development".data, "Engineering".data,
        "Trades".data, "Startups".data ] }

def thoughtfulAnalyst : PInfo :=
  { name := "The Thoughtful Analyst 🧠".data,
    traits :=
      [ "Thinks deeply before speaking".data,
        "Notices patterns others overlook".data,
        "Processes information at a deeper level".data,
        "Quiet, but your insights are gold".data ],
    description := "You're the one who stays quiet in discussions, then drops a comment that makes everyone pause. You see the Matrix while others see the movie.".data,
    advice := "Your insights are MORE valuable than you think. Start sharing them, even if you feel like \"everyone already knows this\" (spoiler: they don't).".data,
    prediction := "People will start coming to YOU for advice because your quiet observations solve problems others can't even see.".data,
    secretStrength := "While others chase quick answers, you're building deep understanding. That compounds over time.".data,
    challenge := "Share ONE insight this week that you usually keep to yourself. Watch what happens.".data,
    wouldSucceedAt :=
      [ "Data science".data, "Strategy".data,
        "Research".data, "Consulting".data ] }

def adaptiveChameleon : PInfo :=
  { name := "The Adaptive Chameleon 🦎".data,
    traits :=
      [ "Adjusts learning style based on the topic".data,
        "Comfortable with change and uncertainty".data,
        "Can switch between deep focus and big picture".data,
        "Doesn't fit neatly into one category".data ],
    description := "You're fluid. Sometimes you're hands-on, sometimes theoretical. Sometimes social, sometimes solo. That's not inconsistency - that's versatility.".data,
    advice := "Stop trying to \"find your style\". Your style IS adaptability. Use it. That makes you valuable in unpredictable situations.".data,
    prediction := "You'll thrive in roles where others struggle - the ones that need someone who can \"figure it out\" without a playbook.".data,
    secretStrength := "While others need the \"right environment\", you create your own. That's a superpower in 2026.".data,
    challenge := "Try learning something completely outside your comfort zone. You'll adapt faster than you think.".data,
    wouldSucceedAt :=
      [ "Project management".data, "Consulting".data,
        "Entrepreneurship".data, "Creative roles".data ] }

def personalityTable : PKey → PInfo
  | .rebel => rebelLearner
  | .explorer => passionateExplorer
  | .builder => practicalBuilder
  | .analyst => thoughtfulAnalyst
  | .chameleon => adaptiveChameleon

/-- Result record of `analyze_conversation`. -/
structure Personality where
  type : Str
  traits : List Str
  description : Str
  advice : Str
  prediction : Str
  secretStrength : Str
  challenge : Str
  wouldSucceedAt : List Str
  engagementScore : Nat
  honestyLevel : Nat
deriving DecidableEq

/-- `PersonalityAnalyzer._get_default_analysis`. -/
def defaultAnalysis : Personality :=
  { type := "The Mystery Explorer 🎭".data,
    traits :=
      [ "Just getting started".data, "Curious enough to try this".data,
        "Open to new experiences".data ],
    description := "Not enough data yet, but you showed up. That counts.".data,
    advice := "Keep exploring. The best insights come from unexpected places.".data,
    prediction := "You'll discover something about yourself you didn't expect.".data,
    secretStrength := "You're willing to try new things. That's rarer than you think.".data,
    challenge := "Complete this conversation with more detail next time. I bet you're more interesting than you're letting on.".data,
    wouldSucceedAt := ["Anything you actually commit to".data],
    engagementScore := 50,
    honestyLevel := 90 }

/-- `PersonalityAnalyzer.analyze_conversation`.  The two `random.randint`
draws (`randint(10, 20)` for the engagement score, `randint(0, 15)` for the
honesty score) are passed in explicitly as `rEng` and `rHon`. -/
def analyzeConversation (h : List Turn) (rEng rHon : Nat) : Personality :=
  if h.isEmpty then defaultAnalysis
  else
    let wc := (splitWs (allResponses h)).length
    let p := personalityTable (personalityKey h)
    { type := p.name, traits := p.traits, description := p.description,
      advice := p.advice, prediction := p.prediction,
      secretStrength := p.secretStrength, challenge := p.challenge,
      wouldSucceedAt := p.wouldSucceedAt,
      engagementScore := min 100 (wc * 3 + rEng),
      honestyLevel := 85 + rHon }

/-! ## Bonus generators -/

/-- Payload of `InteractiveBonusGenerator.generate_mind_reading_game`. -/
structure MindReading where
  title : Str
  subtitle : Str
  predictions : List Str
  challenge : Str
deriving DecidableEq

/-- `InteractiveBonusGenerator.generate_mind_reading_game`: conditional
predictions from the raw user words, padded by three universal ones,
truncated to 4. -/
def generateMindReading (h : List Turn) : MindReading :=
  let lw := lowerStr (joinSpace (h.map (fun t => t.user)))
  let base :=
    (if occursIn ("hate".data) lw then
      ["You tend to avoid things that feel like a waste of time".data] else []) ++
    (if occursIn ("love".data) lw then
      ["When you're into something, you go ALL in".data] else []) ++
    (if ["hard".data, "difficult".data, "challenge".data].any (fun w => occursIn w lw) then
      ["You're secretly attracted to challenges (even if you complain about them)".data] else [])
  { title := "🔮 Mind Reading Time".data,
    subtitle := "Based on our chat, I think I know you. Let's test it:".data,
    predictions :=
      (base ++
        [ "You've had at least one moment where you questioned if you're on the right path".data,
          "There's something you're good at that you don't give yourself credit for".data,
          "You learn better by doing than by being told".data ]).take 4,
    challenge := "How many did I get right? (Be honest! 😏)".data }

/-- Payload of `InteractiveBonusGenerator.generate_future_vision`. -/
structure FutureVision where
  title : Str
  vision : Str
  reminder : Str
deriving DecidableEq

/-- `InteractiveBonusGenerator.generate_future_vision`: scenario keyed by a
substring match on the personality-type name. -/
def generateFutureVision (ptype : Str) : FutureVision :=
  let vision :=
    if occursIn ("Rebel".data) ptype then
      "You'll probably end up in a role where you make the rules, not follow them. Mark my words.".data
    else if occursIn ("Explorer".data) ptype then
      "In 5 years, your 'random interests' will connect into something unique that others can't replicate.".data
    else if occursIn ("Builder".data) ptype then
      "You'll have a portfolio of real projects while others are still collecting certificates. That's your edge.".data
    else if occursIn ("Analyst".data) ptype then
      "People will seek you out for insights. Your quiet observations will become your brand.".data
    else
      "You'll thrive in chaos while others freeze. That adaptability is worth more than any degree.".data
  { title := "🔭 Time Machine: Your Future".data,
    vision := vision,
    reminder := "Screenshot this. Check back in 6 months. I'll wait. 😏".data }

/-- Payload of `InteractiveBonusGenerator.generate_personal_challenge`. -/
structure PersonalChallenge where
  title : Str
  mainChallenge : Str
  whyItMatters : Str
  deadline : Str
  whatToExpect : Str
deriving DecidableEq

def generatePersonalChallenge (p : Personality) : PersonalChallenge :=
  { title := "⚡ Your Personal Challenge".data,
    mainChallenge := p.challenge,
    whyItMatters := "This isn't random. Based on what you said, THIS is what will unlock your next level.".data,
    deadline := "Try it within 24 hours. Seriously. Momentum matters.".data,
    whatToExpect := "You'll either prove me wrong (cool) or discover I was right (also cool). Either way, you win.".data }

/-- `generate_secret_message`: first substring match over the insertion-order
keys of the `messages` dict, else the generic line. -/
def generateSecretMessage (ptype : Str) : Str :=
  if occursIn ("Rebel Learner".data) ptype then
    "The system doesn't break rebels. Rebels break the system. Keep questioning. You're doing it right. 🎸".data
  else if occursIn ("Passionate Explorer".data) ptype then
    "Your curiosity isn't a distraction - it's a superpower. Follow it everywhere. The dots will connect later. 🔥".data
  else if occursIn ("Practical Builder".data) ptype then
    "While others plan, you'll have already built three versions. Speed is your edge. Don't slow down for anyone. 🛠️".data
  else if occursIn ("Thoughtful Analyst".data) ptype then
    "Your silence isn't weakness - it's data collection. When you speak, people listen. Remember that. 🧠".data
  else if occursIn ("Adaptive Chameleon".data) ptype then
    "Being everything to everyone sounds exhausting. But being versatile in a rigid world? That's power. 🦎".data
  else
    "You showed up. You engaged. You're already ahead of 90% of people. Keep that energy. ⚡".data

/-- Result of `ConversationManager.get_ultimate_bonus_package`. -/
structure Bonus where
  personality : Personality
  mindReading : MindReading
  futureVision : FutureVision
  personalChallenge : PersonalChallenge
deriving DecidableEq

/-- `ConversationManager.get_ultimate_bonus_package`: the reveal bundle,
computed from the history plus the two random draws of the analysis step.
The method performs no completeness check. -/
def getUltimateBonusPackage (h : List Turn) (rEng rHon : Nat) : Bonus :=
  let p := analyzeConversation h rEng rHon
  { personality := p,
    mindReading := generateMindReading h,
    futureVision := generateFutureVision p.type,
    personalChallenge := generatePersonalChallenge p }

/-! ## The per-connection protocol (`websocket_endpoint`) -/

/-- Mutable state of a `ConversationManager` instance (the fields the
protocol reads and writes; `user_emotions` and `detected_patterns` are
write-only and omitted). -/
structure ConvState where
  history : List Turn
  followUpCount : Nat
deriving DecidableEq

def maxFollowUps : Nat := 3

/-- Fresh manager created when a connection opens. -/
def initState : ConvState := { history := [], followUpCount := 0 }

/-- `ConversationManager.add_to_history`: unconditional append, no
validation, `follow_up_count` untouched. -/
def ConvState.addToHistory (s : ConvState) (u a : Str) : ConvState :=
  { s with history := s.history ++ [{ user := u, ai := a }] }

/-- `ConversationManager.increment_follow_up`. -/
def ConvState.incrementFollowUp (s : ConvState) : ConvState :=
  { s with followUpCount := s.followUpCount + 1 }

/-- `ConversationManager.is_complete`. -/
def ConvState.isComplete (s : ConvState) : Bool :=
  decide (maxFollowUps ≤ s.followUpCount)

/-- Parsed inbound frame, after `json.loads` and the `type` dispatch. -/
inductive InMsg where
  | initial (message : Str)
  | answer (message : Str)
  | choiceResponse (choiceId : Option Str)
  | unknown
deriving DecidableEq

def isInitialMsg : InMsg → Bool
  | .initial _ => true
  | _ => false

/-- External effects consumed while handling one inbound message: the
generation capability's response (if a generation happens) and the two
`random.randint` draws (if an analysis happens). -/
structure ExtIn where
  gen : Option Str
  rEng : Nat
  rHon : Nat
deriving DecidableEq

/-- Outbound frames, tagged by their `"type"` field, carrying the payload
parts derived from session state (constant decorative fields omitted). -/
inductive OutMsg where
  | error (message : Str)
  | followUp (question : Str) (number total : Nat)
  | complete (message : Str)
  | thinking (message : Str)
  | personalityReveal (bonus : Bonus)
  | mindReading (data : MindReading)
  | secretUnlock (message : Str)
  | interactiveChoice (options : List Str)
  | ultimateReveal (personality : Personality)
  | finale (insightsShared : Nat)
  | respectfulEnding
deriving DecidableEq

inductive Tag where
  | error | followUp | complete | thinking | personalityReveal
  | mindReading | secretUnlock | interactiveChoice | ultimateReveal
  | finale | respectfulEnding
deriving DecidableEq

def OutMsg.tag : OutMsg → Tag
  | .error _ => .error
  | .followUp _ _ _ => .followUp
  | .complete _ => .complete
  | .thinking _ => .thinking
  | .personalityReveal _ => .personalityReveal
  | .mindReading _ => .mindReading
  | .secretUnlock _ => .secretUnlock
  | .interactiveChoice _ => .interactiveChoice
  | .ultimateReveal _ => .ultimateReveal
  | .finale _ => .finale
  | .respectfulEnding => .respectfulEnding

def emptyInputErrorMsg : Str :=
  "Come on, give me something real to work with! 😊".data

def unknownTypeErrorMsg : Str :=
  "Hmm, didn't catch that. Try again? 🤔".data

/-- The eight scripted reveal messages sent when a further `answer` arrives
on a complete session (PHASE 1 through PHASE 8 of the source). -/
def revealSequence (s : ConvState) (e : ExtIn) : List OutMsg :=
  let b := getUltimateBonusPackage s.history e.rEng e.rHon
  [ .complete ("Thanks, we have got your data.".data),
    .thinking ("Wait...".data),
    .thinking ("I'm analyzing what you just told me... 🤔".data),
    .thinking ("Okay, I think I figured you out. This is scary accurate... 👀".data),
    .personalityReveal b,
    .mindReading b.mindReading,
    .secretUnlock (generateSecretMessage b.personality.type),
    .interactiveChoice ["reveal".data, "skip".data] ]

/-- One iteration of the `while True` receive loop of `websocket_endpoint`:
returns the updated manager state, the outbound messages sent during the
iteration, and whether the loop `break`s (session terminated). -/
def step (s : ConvState) (m : InMsg) (e : ExtIn) : ConvState × List OutMsg × Bool :=
  match m with
  | .initial raw =>
    let t := pyStrip raw
    if t = [] then (s, [.error emptyInputErrorMsg], false)
    else
      let fu := generateFollowUp s.followUpCount t e.gen
      let s' := (s.addToHistory t fu).incrementFollowUp
      (s', [.followUp fu s'.followUpCount maxFollowUps], false)
  | .answer raw =>
    let t := pyStrip raw
    if s.isComplete then
      (s, revealSequence s e, false)
    else
      let fu := generateFollowUp s.followUpCount t e.gen
      let s' := (s.addToHistory t fu).incrementFollowUp
      (s', [.followUp fu s'.followUpCount maxFollowUps], false)
  | .choiceResponse cid =>
    if cid = some ("reveal".data) then
      let p := (getUltimateBonusPackage s.history e.rEng e.rHon).personality
      (s, [.ultimateReveal p, .finale s.history.length], true)
    else if cid = some ("skip".data) then
      (s, [.respectfulEnding], true)
    else
      (s, [], true)
  | .unknown => (s, [.error unknownTypeErrorMsg], false)

/-- The receive loop itself: handle messages in order until the list is
exhausted or an iteration `break`s.  Returns the final state, all outbound
messages in emission order, and whether the session terminated. -/
def run : ConvState → List (InMsg × ExtIn) → ConvState × List OutMsg × Bool
  | s, [] => (s, [], false)
  | s, (m, e) :: rest =>
    match step s m e with
    | (s', out, true) => (s', out, true)
    | (s', out, false) =>
      match run s' rest with
      | (s'', out', t) => (s'', out ++ out', t)

/-! ## Scenario data used by the theorems below -/

/-- The `strong_hate` keyword class of `EmotionDetector.EMOTION_PATTERNS`. -/
def strongHateKeywords : List Str :=
  ["hate".data, "despise".data, "can't stand".data, "loathe".data]

/-- The spec's wording of the category rules, for comparison with the
code's cascade: strong-negatives with questions → rebel; strong-positives
with detailed responses → explorer; action words with specifics → builder;
detailed without action words → analyst; otherwise the catch-all
chameleon — first matching rule wins. -/
def specPersonalityKey (h : List Turn) : PKey :=
  let s := allResponses h
  let wc := (splitWs s).length
  if hasStrongNegatives s && hasQuestions s then .rebel
  else if hasStrongPositives s && isDetailed h wc then .explorer
  else if hasActionWords s && usesSpecifics s then .builder
  else if isDetailed h wc && !hasActionWords s then .analyst
  else .chameleon

/-- Four repeated non-empty `initial` messages handled on one connection
(the `initial` branch performs no completeness check before incrementing). -/
def fourInitials : List (InMsg × ExtIn) :=
  List.replicate 4 (InMsg.initial ("hi".data), { gen := none, rEng := 0, rHon := 0 })

/-- The intended flow up to completion: one `initial` and two `answer`
messages, bringing `followUpCount` to 3 with three `follow_up` replies. -/
def c3Prelude : List (InMsg × ExtIn) :=
  [ (InMsg.initial ("I hate studying".data), ⟨none, 0, 0⟩),
    (InMsg.answer ("because it is boring".data), ⟨none, 0, 0⟩),
    (InMsg.answer ("I would rather build things".data), ⟨none, 0, 0⟩) ]

/-- The opening message of the spec's first scenario. -/
def c4Input : Str := "I hate studying because it's pointless".data

/-- A session whose questioning phase has completed. -/
def completeState : ConvState := { history := [], followUpCount := 3 }

/-- A one-turn history. -/
def c7History : List Turn := [{ user := "a".data, ai := "q".data }]

/-- A one-turn history matching the rebel rule (strong negative plus a
question marker). -/
def c8History : List Turn := [{ user := "I hate this why".data, ai := "q".data }]

/-! ## Substring facts -/

theorem leadsWith_append (l t : Str) : leadsWith l (l ++ t) = true := by
  induction l with
  | nil => rfl
  | cons c cs ih => simp [leadsWith, ih]

theorem occursIn_of_leadsWith (n hay : Str) (h : leadsWith n hay = true) :
    occursIn n hay = true := by
  cases hay with
  | nil => simpa [occursIn] using h
  | cons d ds => simp [occursIn, h]

theorem occursIn_append_left (n pre hay : Str) (h : occursIn n hay = true) :
    occursIn n (pre ++ hay) = true := by
  induction pre with
  | nil => simpa using h
  | cons p ps ih => simp [occursIn, ih]

theorem occursIn_sandwich (n pre suf : Str) : occursIn n (pre ++ n ++ suf) = true := by
  rw [List.append_assoc]
  exact occursIn_append_left n pre (n ++ suf)
    (occursIn_of_leadsWith n (n ++ suf) (leadsWith_append n suf))

theorem occursIn_lower_sandwich (kw pre suf : Str) :
    occursIn (lowerStr kw) (lowerStr (pre ++ kw ++ suf)) = true := by
  simp only [lowerStr, List.map_append]
  exact occursIn_sandwich (List.map Char.toLower kw) _ _

theorem exceptFallback_contains (kw : Str) :
    occursIn (lowerStr kw) (lowerStr (exceptFallback kw)) = true :=
  occursIn_lower_sandwich kw _ _

theorem triggerFallback_contains (count : Nat) (kw : Str) :
    occursIn (lowerStr kw) (lowerStr (triggerFallback count kw)) = true := by
  unfold triggerFallback
  split
  · exact occursIn_lower_sandwich kw _ _
  · split
    · exact occursIn_lower_sandwich kw _ _
    · exact occursIn_lower_sandwich kw _ _

/-- Every result of `generate_follow_up_question` contains `keyword_to_use`
case-insensitively, on all three paths (validated generation, validation
fallback, exception fallback). -/
theorem generateFollowUp_contains (count : Nat) (input : Str) (oracle : Option Str) :
    occursIn (lowerStr (requiredKeyword input)) (lowerStr (generateFollowUp count input oracle)) = true := by
  cases oracle with
  | none => exact exceptFallback_contains (requiredKeyword input)
  | some t =>
    simp only [generateFollowUp]
    split
    · next h => exact h
    · next h => exact triggerFallback_contains count (requiredKeyword input)

/-- C2: every follow-up question returned by
`generate_follow_up_question` — whether the externally generated text
passed validation, or the keyword-validation fallback fired, or the
external call failed — contains the required keyword case-insensitively. -/
theorem c2_keyword_invariant (count : Nat) (input : Str) (oracle : Option Str) :
    occursIn (lowerStr (requiredKeyword input))
      (lowerStr (generateFollowUp count input oracle)) = true :=
  generateFollowUp_contains count input oracle

/-! ## Follow-up count bound -/

theorem step_count_le (s : ConvState) (m : InMsg) (e : ExtIn)
    (h : s.followUpCount ≤ maxFollowUps) (hm : isInitialMsg m = false) :
    (step s m e).1.followUpCount ≤ maxFollowUps := by
  cases m with
  | initial t => simp [isInitialMsg] at hm
  | answer t =>
    simp only [step]
    split
    · exact h
    · next hc =>
      simp only [ConvState.isComplete, maxFollowUps, decide_eq_true_eq] at hc
      simp only [ConvState.addToHistory, ConvState.incrementFollowUp, maxFollowUps]
      omega
  | choiceResponse cid =>
    simp only [step]
    split
    · exact h
    · split
      · exact h
      · exact h
  | unknown => exact h

theorem run_count_le (msgs : List (InMsg × ExtIn)) (s : ConvState)
    (h : s.followUpCount ≤ maxFollowUps)
    (hm : ∀ p ∈ msgs, isInitialMsg p.1 = false) :
    (run s msgs).1.followUpCount ≤ maxFollowUps := by
  induction msgs generalizing s with
  | nil => exact h
  | cons p rest ih =>
    obtain ⟨m, e⟩ := p
    have hstep := step_count_le s m e h (hm (m, e) (List.mem_cons_self _ _))
    simp only [run]
    rcases hs : step s m e with ⟨s', out, b⟩
    rw [hs] at hstep
    cases b with
    | true => exact hstep
    | false => exact ih s' hstep (fun q hq => hm q (List.mem_cons_of_mem _ hq))

/-- C1 counterexample: after four `initial` messages the follow-up counter
stands at 4, exceeding `maxFollowUps = 3` — the claimed bound fails for
sequences with repeated `initial` messages. -/
theorem c1_counterexample :
    maxFollowUps < (run initState fourInitials).1.followUpCount := by decide

/-- C1 (amended): for the intended flow — a single `initial` message
followed by any sequence of non-`initial` messages — `followUpCount` never
exceeds `maxFollowUps`; the `answer` branch increments only below the bound. -/
theorem c1_follow_up_bound (t : Str) (e : ExtIn) (msgs : List (InMsg × ExtIn))
    (hm : ∀ p ∈ msgs, isInitialMsg p.1 = false) :
    (run initState ((InMsg.initial t, e) :: msgs)).1.followUpCount ≤ maxFollowUps := by
  have hstep : (step initState (InMsg.initial t) e).1.followUpCount ≤ maxFollowUps := by
    simp only [step]
    split
    · decide
    · simp only [ConvState.addToHistory, ConvState.incrementFollowUp, initState, maxFollowUps]
      omega
  have hb : (step initState (InMsg.initial t) e).2.2 = false := by
    simp only [step]
    split <;> rfl
  simp only [run]
  rcases hs : step initState (InMsg.initial t) e with ⟨s', out, b⟩
  rw [hs] at hstep hb
  cases b with
  | true => exact absurd hb (by simp)
  | false => exact run_count_le msgs s' hstep hm

/-- Witness for the amended bound: a concrete intended-flow run. -/
theorem c1_witness :
    (run initState ((InMsg.initial ("hi".data), ⟨none, 0, 0⟩) ::
      [(InMsg.answer ("ok".data), ⟨none, 0, 0⟩),
       (InMsg.answer ("sure".data), ⟨none, 0, 0⟩),
       (InMsg.answer ("yes".data), ⟨none, 0, 0⟩),
       (InMsg.answer ("more".data), ⟨none, 0, 0⟩)])).1.followUpCount ≤ maxFollowUps :=
  c1_follow_up_bound ("hi".data) ⟨none, 0, 0⟩ _ (by decide)

/-! ## The scripted reveal -/

/-- C3: on a complete session (`followUpCount ≥ maxFollowUps`), the next
`answer` message triggers exactly the eight scripted reveal messages in
order — acknowledgement (`complete`), transition and analyzing and
pre-reveal (`thinking` ×3), `personality_reveal`, the prediction
restatement (`mind_reading`), the category-keyed `secret_unlock`, and the
two-option `interactive_choice` — after which the session stays open
awaiting the choice (no `break`), with the state unchanged. -/
theorem c3_reveal_sequence (s : ConvState) (t : Str) (e : ExtIn)
    (h : s.isComplete = true) :
    (step s (InMsg.answer t) e).2.1.map OutMsg.tag =
      [Tag.complete, Tag.thinking, Tag.thinking, Tag.thinking,
       Tag.personalityReveal, Tag.mindReading, Tag.secretUnlock,
       Tag.interactiveChoice] ∧
    (step s (InMsg.answer t) e).2.1.drop 7 =
      [OutMsg.interactiveChoice ["reveal".data, "skip".data]] ∧
    (step s (InMsg.answer t) e).1 = s ∧
    (step s (InMsg.answer t) e).2.2 = false := by
  refine ⟨?_, ?_, ?_, ?_⟩ <;> simp [step, h, revealSequence, OutMsg.tag]

/-- Witness run for the reveal-sequence theorem: the prelude brings the
counter to 3, the fourth `answer` fires the scripted reveal. -/
theorem c3_witness :
    (step (run initState c3Prelude).1 (InMsg.answer ("done".data)) ⟨none, 0, 0⟩).2.1.map OutMsg.tag =
      [Tag.complete, Tag.thinking, Tag.thinking, Tag.thinking,
       Tag.personalityReveal, Tag.mindReading, Tag.secretUnlock,
       Tag.interactiveChoice] ∧
    (step (run initState c3Prelude).1 (InMsg.answer ("done".data)) ⟨none, 0, 0⟩).2.1.drop 7 =
      [OutMsg.interactiveChoice ["reveal".data, "skip".data]] ∧
    (step (run initState c3Prelude).1 (InMsg.answer ("done".data)) ⟨none, 0, 0⟩).1 =
      (run initState c3Prelude).1 ∧
    (step (run initState c3Prelude).1 (InMsg.answer ("done".data)) ⟨none, 0, 0⟩).2.2 = false :=
  c3_reveal_sequence _ _ _ (by decide)

/-! ## The opening-scenario keyword -/

/-- C4 counterexample: on `"I hate studying because it's pointless"` the
extraction rule (stop words removed, descending length) yields
`["pointless", "studying", "hate"]`, so the chosen keyword is
`"pointless"` — neither `studying` nor any `hate`-class token. -/
theorem c4_counterexample :
    extractKeywords c4Input = ["pointless".data, "studying".data, "hate".data] ∧
    requiredKeyword c4Input = "pointless".data ∧
    requiredKeyword c4Input ≠ "studying".data ∧
    requiredKeyword c4Input ∉ strongHateKeywords := by decide

/-- C4 (amended): on that opening message the required keyword is
`"pointless"` (the longest surviving token); the emitted follow-up question
contains it case-insensitively whatever the generation capability returns,
`followUpCount` becomes 1, the session is not complete and not terminated,
and the sole reply is a `follow_up` message. -/
theorem c4_opening_scenario (e : ExtIn) :
    requiredKeyword (pyStrip c4Input) = "pointless".data ∧
    occursIn ("pointless".data) (lowerStr (generateFollowUp 0 (pyStrip c4Input) e.gen)) = true ∧
    (step initState (InMsg.initial c4Input) e).1.followUpCount = 1 ∧
    (step initState (InMsg.initial c4Input) e).1.isComplete = false ∧
    (step initState (InMsg.initial c4Input) e).2.1.map OutMsg.tag = [Tag.followUp] ∧
    (step initState (InMsg.initial c4Input) e).2.2 = false := by
  have hne : ¬(pyStrip c4Input = []) := by decide
  have heq : lowerStr (requiredKeyword (pyStrip c4Input)) = "pointless".data := by decide
  refine ⟨by decide, ?_, ?_, ?_, ?_, ?_⟩
  · have h := generateFollowUp_contains 0 (pyStrip c4Input) e.gen
    rw [heq] at h
    exact h
  · simp [step, hne, ConvState.addToHistory, ConvState.incrementFollowUp, initState]
  · simp [step, hne, ConvState.isComplete, ConvState.addToHistory,
      ConvState.incrementFollowUp, initState, maxFollowUps]
  · simp [step, hne, OutMsg.tag]
  · simp [step, hne]

/-! ## Reveal-bundle guarding -/

/-- C5 counterexample: on a fresh, incomplete session the reveal-bundle
computation returns a normal package (the default analysis) — there is no
completeness check and no premature-reveal failure anywhere; indeed a
`choice_response` of `reveal` handled before any follow-up emits a reveal
message built from the empty history. -/
theorem c5_counterexample :
    initState.isComplete = false ∧
    (getUltimateBonusPackage initState.history 0 0).personality.type =
      "The Mystery Explorer 🎭".data ∧
    (step initState (InMsg.choiceResponse (some ("reveal".data))) ⟨none, 0, 0⟩).2.1.map OutMsg.tag =
      [Tag.ultimateReveal, Tag.finale] := by decide

/-- C5 (amended): `get_ultimate_bonus_package` never fails — it is a total
function of the history (yielding the default analysis on an empty one) —
and the `personality_reveal` message is emitted only by the `answer` branch
of the dispatcher when `followUpCount ≥ maxFollowUps`. -/
theorem c5_reveal_emission (s : ConvState) (m : InMsg) (e : ExtIn)
    (h : Tag.personalityReveal ∈ (step s m e).2.1.map OutMsg.tag) :
    (∃ t, m = InMsg.answer t) ∧ maxFollowUps ≤ s.followUpCount := by
  cases m with
  | initial t =>
    simp only [step] at h
    split at h
    · simp [OutMsg.tag] at h
    · simp [OutMsg.tag] at h
  | answer t =>
    simp only [step] at h
    split at h
    · next hc => exact ⟨⟨t, rfl⟩, by simpa [ConvState.isComplete] using hc⟩
    · simp [OutMsg.tag] at h
  | choiceResponse cid =>
    simp only [step] at h
    split at h
    · simp [OutMsg.tag] at h
    · split at h
      · simp [OutMsg.tag] at h
      · simp at h
  | unknown => simp [step, OutMsg.tag] at h

/-- Witness for the emission guard: a `personality_reveal` observed on a
complete session certifies the hypotheses concretely. -/
theorem c5_witness :
    (∃ t, InMsg.answer ("x".data) = InMsg.answer t) ∧
    maxFollowUps ≤ completeState.followUpCount :=
  c5_reveal_emission completeState (InMsg.answer ("x".data)) ⟨none, 0, 0⟩ (by decide)

/-! ## History appending -/

/-- C6 counterexample: `add_to_history` with a `userText` that is empty
(after trimming) does not fail and does not leave the history unchanged —
it appends the turn like any other. -/
theorem c6_counterexample :
    (initState.addToHistory [] ("q".data)).history ≠ initState.history ∧
    (initState.addToHistory [] ("q".data)).history.length = 1 := by decide

/-- C6 (amended): `add_to_history` performs no validation: for every state
and texts it appends the turn and leaves `followUpCount` unchanged, even
when `userText` is empty after trimming; the only empty-input rejection
lives in the dispatcher's `initial` branch, which emits an `error` message
and leaves the state unchanged. -/
theorem c6_add_to_history (s : ConvState) (u a : Str) :
    (s.addToHistory u a).history = s.history ++ [{ user := u, ai := a }] ∧
    (s.addToHistory u a).followUpCount = s.followUpCount ∧
    ∀ (e : ExtIn) (t : Str), pyStrip t = [] →
      step s (InMsg.initial t) e = (s, [OutMsg.error emptyInputErrorMsg], false) := by
  refine ⟨rfl, rfl, ?_⟩
  intro e t ht
  simp [step, ht]

/-- Witness: appending a concrete turn, and a blank `initial` rejected by
the dispatcher with the state unchanged. -/
theorem c6_witness :
    ((initState.addToHistory ("x".data) ("q".data)).history =
      initState.history ++ [{ user := "x".data, ai := "q".data }]) ∧
    ((initState.addToHistory ("x".data) ("q".data)).followUpCount = initState.followUpCount) ∧
    step initState (InMsg.initial ("  ".data)) ⟨none, 0, 0⟩ =
      (initState, [OutMsg.error emptyInputErrorMsg], false) :=
  ⟨(c6_add_to_history initState ("x".data) ("q".data)).1,
   (c6_add_to_history initState ("x".data) ("q".data)).2.1,
   (c6_add_to_history initState ("x".data) ("q".data)).2.2 ⟨none, 0, 0⟩ ("  ".data) (by decide)⟩

/-! ## Reveal-bundle determinism -/

/-- C7 counterexample: two invocations of the reveal-bundle computation on
the same one-turn history but with different `randint(10, 20)` draws (10
vs 11, both legal) yield different engagement scores — the numeric scores
are not a function of the history. -/
theorem c7_counterexample :
    (getUltimateBonusPackage c7History 10 0).personality.engagementScore ≠
      (getUltimateBonusPackage c7History 11 0).personality.engagementScore := by decide

/-- C7 (amended): the reveal bundle is deterministic in the history for the
category and every textual artifact (type, traits, description, advice,
prediction, secret strength, challenge, career list, mind-reading game,
future vision, personal challenge); only the two numeric scores depend on
the random draws. -/
theorem c7_reveal_determinism (h : List Turn) (r1 r2 s1 s2 : Nat) :
    (getUltimateBonusPackage h r1 r2).personality.type =
      (getUltimateBonusPackage h s1 s2).personality.type ∧
    (getUltimateBonusPackage h r1 r2).personality.traits =
      (getUltimateBonusPackage h s1 s2).personality.traits ∧
    (getUltimateBonusPackage h r1 r2).personality.description =
      (getUltimateBonusPackage h s1 s2).personality.description ∧
    (getUltimateBonusPackage h r1 r2).personality.advice =
      (getUltimateBonusPackage h s1 s2).personality.advice ∧
    (getUltimateBonusPackage h r1 r2).personality.prediction =
      (getUltimateBonusPackage h s1 s2).personality.prediction ∧
    (getUltimateBonusPackage h r1 r2).personality.secretStrength =
      (getUltimateBonusPackage h s1 s2).personality.secretStrength ∧
    (getUltimateBonusPackage h r1 r2).personality.challenge =
      (getUltimateBonusPackage h s1 s2).personality.challenge ∧
    (getUltimateBonusPackage h r1 r2).personality.wouldSucceedAt =
      (getUltimateBonusPackage h s1 s2).personality.wouldSucceedAt ∧
    (getUltimateBonusPackage h r1 r2).mindReading =
      (getUltimateBonusPackage h s1 s2).mindReading ∧
    (getUltimateBonusPackage h r1 r2).futureVision =
      (getUltimateBonusPackage h s1 s2).futureVision ∧
    (getUltimateBonusPackage h r1 r2).personalChallenge =
      (getUltimateBonusPackage h s1 s2).personalChallenge := by
  unfold getUltimateBonusPackage analyzeConversation
  refine ⟨?_, ?_, ?_, ?_, ?_, ?_, ?_, ?_, ?_, ?_, ?_⟩ <;>
    first
      | rfl
      | (split <;> rfl)

/-! ## Classification rules -/

theorem personalityKey_eq_spec (h : List Turn) :
    personalityKey h = specPersonalityKey h := by
  cases hq : hasQuestions (allResponses h) <;>
    cases hn : hasStrongNegatives (allResponses h) <;>
      simp [personalityKey, specPersonalityKey, hq, hn]

/-- C8: for every fixed non-empty history the selected category is the same
across runs (it does not depend on the random draws), and it is exactly the
spec's priority cascade, first matching rule winning. -/
theorem c8_classification (h : List Turn) (r1 r2 s1 s2 : Nat) (hne : h ≠ []) :
    (analyzeConversation h r1 r2).type = (analyzeConversation h s1 s2).type ∧
    (analyzeConversation h r1 r2).type = (personalityTable (specPersonalityKey h)).name := by
  have hni : h.isEmpty = false := by
    cases h with
    | nil => exact absurd rfl hne
    | cons a t => rfl
  constructor
  · unfold analyzeConversation
    split <;> rfl
  · simp [analyzeConversation, hni, personalityKey_eq_spec]

/-- Witness for the classification theorem on a concrete rebel-class
history. -/
theorem c8_witness :
    ((analyzeConversation c8History 0 0).type = (analyzeConversation c8History 5 7).type ∧
     (analyzeConversation c8History 0 0).type = (personalityTable (specPersonalityKey c8History)).name) :=
  c8_classification c8History 0 0 5 7 (by decide)

/-! ## Choice handling and phase-free dispatch -/

/-- C9: a `choice_response` of `skip` produces exactly one
`respectful_ending` message and terminates the session; `reveal` produces
an `ultimate_reveal` then a `finale` and terminates, the state never
changing. -/
theorem c9_choice_response (s : ConvState) (e : ExtIn) :
    step s (InMsg.choiceResponse (some ("skip".data))) e =
      (s, [OutMsg.respectfulEnding], true) ∧
    (step s (InMsg.choiceResponse (some ("reveal".data))) e).2.1.map OutMsg.tag =
      [Tag.ultimateReveal, Tag.finale] ∧
    (step s (InMsg.choiceResponse (some ("reveal".data))) e).1 = s ∧
    (step s (InMsg.choiceResponse (some ("reveal".data))) e).2.2 = true := by
  refine ⟨?_, ?_, ?_, ?_⟩ <;> simp [step, OutMsg.tag]

/-- C10: the dispatcher tracks no phase: an `answer` arriving as the very
first message is handled as a questioning turn (one `follow_up` reply,
history grows to one turn, counter becomes 1, session continues), and a
`choice_response` is accepted — and terminates the session — from any
state whatsoever. -/
theorem c10_no_phase_tracking (t : Str) (e : ExtIn) (s : ConvState)
    (cid : Option Str) (e' : ExtIn) :
    (step initState (InMsg.answer t) e).1.followUpCount = 1 ∧
    (step initState (InMsg.answer t) e).1.history.length = 1 ∧
    (step initState (InMsg.answer t) e).2.1.map OutMsg.tag = [Tag.followUp] ∧
    (step initState (InMsg.answer t) e).2.2 = false ∧
    (step s (InMsg.choiceResponse cid) e').2.2 = true := by
  refine ⟨?_, ?_, ?_, ?_, ?_⟩ <;>
    first
      | (simp only [step]; split_ifs <;> rfl)
      | simp [step, ConvState.isComplete, maxFollowUps, initState,
          ConvState.addToHistory, ConvState.incrementFollowUp, OutMsg.tag]
